import Mathlib

/-!
Verification of the chat controller (`useChatWithGemini`) and the chat page
component of the repository. The hook's operations are embedded as pure
functions from an explicit environment (database contents and outcomes of
external calls) and the hook's in-memory state to a new state plus an event
trace recording network calls, user-visible toasts, logging, and changes to
the loading flag.
-/

namespace ChatSpec

/-- A chat message as held in the hook's in-memory state: `{role, content}`.
The source types `role` as the string union `"user" | "assistant"`; we keep it
as a string (database rows are cast, not validated). -/
structure Message where
  role : String
  content : String
deriving DecidableEq, Repr

/-- A row of the `chat_sessions` table. -/
structure ChatSessionRow where
  id : String
  agent_id : String
  user_id : String
  title : String
deriving DecidableEq, Repr

/-- A row of the `chat_messages` table. -/
structure ChatMessageRow where
  session_id : String
  role : String
  content : String
  created_at : Nat
deriving DecidableEq, Repr

/-- A row of the `agents` table (the fields the chat page uses). The
`description` column is nullable. -/
structure Agent where
  name : String
  description : Option String
deriving DecidableEq, Repr

/-- The hook's in-memory state: the `messages`, `isLoading` and `sessionId`
`useState` cells. -/
structure HookState where
  messages : List Message
  isLoading : Bool
  sessionId : Option String
deriving DecidableEq, Repr

/-- A network request issued by the hook. -/
inductive NetCall where
  | insertMessage (sessionId role content : String)
  | insertSession (id agentId userId title : String)
  | selectSession (id : String)
  | selectMessages (sessionId : String)
  | selectAgent (id : String)
  | invokeGenerate (msgs : List Message)
deriving DecidableEq, Repr

/-- An observable event of one hook operation: a network call, a toast
notification, a `console.error` log, or a write to the `isLoading` flag. -/
inductive Event where
  | net (c : NetCall)
  | toast (title description : String)
  | logError (msg : String)
  | setLoading (b : Bool)
deriving DecidableEq, Repr

/-- Is an event a network call? -/
def Event.isNet : Event → Bool
  | .net _ => true
  | _ => false

/-- Is an event a toast notification? -/
def Event.isToast : Event → Bool
  | .toast _ _ => true
  | _ => false

/-- Is an event a `console.error` log? -/
def Event.isLog : Event → Bool
  | .logError _ => true
  | _ => false

/-- The network calls of a trace. -/
def netEvents (tr : List Event) : List Event := tr.filter Event.isNet

/-- The toasts of a trace. -/
def toastEvents (tr : List Event) : List Event := tr.filter Event.isToast

/-- The logs of a trace. -/
def logEvents (tr : List Event) : List Event := tr.filter Event.isLog

/-- The persisted tables visible to the hook. -/
structure Db where
  chat_sessions : List ChatSessionRow
  chat_messages : List ChatMessageRow
deriving Repr

/-- Models `saveMessage(message, chatSessionId)`: inserts a row into
`chat_messages`; a failed insert is caught and only logged (the function
returns normally and shows no toast). `res` is the database's response to the
insert. -/
def saveMessage (res : Except String Unit) (message : Message)
    (chatSessionId : String) : List Event :=
  Event.net (.insertMessage chatSessionId message.role message.content) ::
    match res with
    | .ok _ => []
    | .error e => [Event.logError ("Error saving message: " ++ e)]

/-- Environment of `createChatSession`: the UUID produced by
`crypto.randomUUID()` and the database's response to the `chat_sessions`
insert (on success the inserted row is returned, whose `id` is the UUID). -/
structure CreateSessionEnv where
  newUuid : String
  insertResult : Except String Unit
deriving Repr

/-- Models `createChatSession(agentId, title)`: toasts and returns `null` when no
user is authenticated; otherwise inserts a fresh session row and returns its
id, or toasts and returns `null` when the insert fails. -/
def createChatSession (env : CreateSessionEnv) (user : Option String)
    (agentId : String) (title : String) : Option String × List Event :=
  match user with
  | none =>
      (none, [Event.toast "Authentication required"
        "You must be logged in to create a chat session"])
  | some uid =>
      match env.insertResult with
      | .ok _ =>
          (some env.newUuid,
            [Event.net (.insertSession env.newUuid agentId uid title)])
      | .error e =>
          (none,
            [Event.net (.insertSession env.newUuid agentId uid title),
             Event.logError ("Error creating chat session: " ++ e),
             Event.toast "Error creating chat session" e])

/-- Models `getAgentConfig(agentId)`: selects the agent row; a failure is caught,
logged, and turned into `null` — no toast, no thrown error. -/
def getAgentConfig (res : Except String Agent) (agentId : String) :
    Option Agent × List Event :=
  match res with
  | .ok a => (some a, [Event.net (.selectAgent agentId)])
  | .error e =>
      (none, [Event.net (.selectAgent agentId),
              Event.logError ("Error fetching agent config: " ++ e)])

/-- The response body of the `gemini-chat` function invocation. -/
structure GenData where
  generatedText : String
deriving DecidableEq, Repr

/-- Environment of one `sendMessage` call: the outcomes of the external
calls it may issue, in program order. The generation result distinguishes an
invocation error from a response whose `data` is absent. -/
structure SendEnv where
  createEnv : CreateSessionEnv
  saveUserResult : Except String Unit
  agentResult : Except String Agent
  generateResult : Except String (Option GenData)
  saveAssistantResult : Except String Unit
deriving Repr

/-- Continuation of `sendMessage`'s `try` block once `currentSessionId` is
known: persist the user message, fetch the agent config, invoke generation
with `[...messages, userMessage]`, and on success append and persist the
assistant message. Returns the state after the block, its events, and
`some e` when the block threw `e`. -/
def sendMessageBody (env : SendEnv) (agentId : String) (st : HookState)
    (userMessage : Message) (sid : String) (ev : List Event) :
    HookState × List Event × Option String :=
  let evSave := saveMessage env.saveUserResult userMessage sid
  let ag := getAgentConfig env.agentResult agentId
  let allMessages := st.messages
  let evGen := [Event.net (.invokeGenerate allMessages)]
  let ev := ev ++ evSave ++ ag.2 ++ evGen
  match env.generateResult with
  | .error e => (st, ev, some e)
  | .ok none => (st, ev, some "No response received from Gemini")
  | .ok (some g) =>
      if g.generatedText.isEmpty then
        (st, ev, some "No response received from Gemini")
      else
        let assistantMessage : Message := ⟨"assistant", g.generatedText⟩
        let st2 := { st with messages := st.messages ++ [assistantMessage] }
        (st2, ev ++ saveMessage env.saveAssistantResult assistantMessage sid,
          none)

/-- The test `!content.trim()` of the source's blank-input guard: the string
trims to empty exactly when every character is whitespace. -/
def isBlank (s : String) : Bool := s.data.all Char.isWhitespace

/-- The `try` block of `sendMessage`, entered after the optimistic append of
the user message and `setIsLoading(true)`: reuse the current session id or
lazily create one, then run the rest of the block. -/
def sendMessageTry (env : SendEnv) (uid : String) (agentId : String)
    (st : HookState) (userMessage : Message) :
    HookState × List Event × Option String :=
  match st.sessionId with
  | some sid => sendMessageBody env agentId st userMessage sid []
  | none =>
      let cs := createChatSession env.createEnv (some uid) agentId "New Chat"
      match cs.1 with
      | none => (st, cs.2, some "Failed to create chat session")
      | some sid =>
          sendMessageBody env agentId { st with sessionId := some sid }
            userMessage sid cs.2

/-- Models `sendMessage(content)`: no-op on blank input; toast-only on an
unauthenticated caller; otherwise optimistic append of the user message,
`setIsLoading(true)`, the `try` block, a toast in `catch`, and
`setIsLoading(false)` in `finally`. -/
def sendMessage (env : SendEnv) (user : Option String) (agentId : String)
    (st : HookState) (content : String) : HookState × List Event :=
  if isBlank content then (st, [])
  else
    match user with
    | none =>
        (st, [Event.toast "Authentication required"
          "You must be logged in to send messages"])
    | some uid =>
        let userMessage : Message := ⟨"user", content⟩
        let st1 : HookState :=
          { st with messages := st.messages ++ [userMessage], isLoading := true }
        let r := sendMessageTry env uid agentId st1 userMessage
        let evCatch : List Event :=
          match r.2.2 with
          | none => []
          | some e =>
              [Event.logError ("Error sending message: " ++ e),
               Event.toast "Error"
                 (if e.isEmpty then "Failed to get response" else e)]
        ({ r.1 with isLoading := false },
          Event.setLoading true :: (r.2.1 ++ evCatch ++ [Event.setLoading false]))

/-- Models `resetChat()`: clears the message list and the session id; issues no
network call. -/
def resetChat (st : HookState) : HookState × List Event :=
  ({ st with messages := [], sessionId := none }, [])

/-- Ordering of `chat_messages` rows by `created_at` (the `order("created_at",
ascending: true)` clause of the messages query). -/
def msgLe (a b : ChatMessageRow) : Prop := a.created_at ≤ b.created_at

instance : DecidableRel msgLe := fun a b => Nat.decLe a.created_at b.created_at

instance : IsTotal ChatMessageRow msgLe :=
  ⟨fun a b => Nat.le_total a.created_at b.created_at⟩

instance : IsTrans ChatMessageRow msgLe := ⟨fun _ _ _ => Nat.le_trans⟩

/-- The result of `select * from chat_messages where session_id = sid order by
created_at ascending`: the rows of the session, sorted by creation time. -/
def sortedSessionMessages (db : Db) (sid : String) : List ChatMessageRow :=
  List.insertionSort msgLe (db.chat_messages.filter (fun r => r.session_id == sid))

/-- Environment of one `loadSession` call: the database contents and the
possible failures of its two queries. -/
structure LoadEnv where
  db : Db
  sessionFetchError : Option String
  messagesFetchError : Option String
deriving Repr

/-- The `try` block of `loadSession(sessionId)`: guards on a missing session
id and an unauthenticated user, then `setSessionId` and `setIsLoading(true)`,
then fetches the session row, checks ownership, and fetches and installs the
session's messages. Returns the state after the block, its events, and
`some e` when the block threw `e`. -/
def loadSessionTry (env : LoadEnv) (user : Option String) (st : HookState)
    (sessionId : String) : HookState × List Event × Option String :=
  if sessionId.isEmpty then (st, [], some "No session ID provided")
  else
    match user with
    | none => (st, [], some "User not authenticated")
    | some uid =>
        let st1 : HookState :=
          { st with sessionId := some sessionId, isLoading := true }
        let ev : List Event :=
          [Event.setLoading true, Event.net (.selectSession sessionId)]
        match env.sessionFetchError with
        | some e =>
            (st1, ev ++ [Event.logError ("Error fetching session: " ++ e)],
              some ("Failed to fetch session: " ++ e))
        | none =>
            match env.db.chat_sessions.find? (fun r => r.id == sessionId) with
            | none => (st1, ev, some "Session not found")
            | some row =>
                if row.user_id ≠ uid then
                  (st1, ev ++ [Event.logError "Permission denied"],
                    some "You don't have permission to access this chat session")
                else
                  let ev2 := ev ++ [Event.net (.selectMessages sessionId)]
                  match env.messagesFetchError with
                  | some e =>
                      (st1, ev2 ++ [Event.logError ("Error fetching messages: " ++ e)],
                        some ("Failed to fetch messages: " ++ e))
                  | none =>
                      let loadedMessages :=
                        (sortedSessionMessages env.db sessionId).map
                          (fun r => Message.mk r.role r.content)
                      ({ st1 with messages := loadedMessages }, ev2, none)

/-- Models `loadSession(sessionId)`: the `try` block, a toast in `catch`, and
`setIsLoading(false)` in `finally`. -/
def loadSession (env : LoadEnv) (user : Option String) (st : HookState)
    (sessionId : String) : HookState × List Event :=
  let r := loadSessionTry env user st sessionId
  let evCatch : List Event :=
    match r.2.2 with
    | none => []
    | some e =>
        [Event.logError ("Error in loadSession: " ++ e),
         Event.toast "Error loading chat session" e]
  ({ r.1 with isLoading := false },
    r.2.1 ++ evCatch ++ [Event.setLoading false])

/-- Is `c` one of the characters matched by `[0-9a-f]` under the `i` flag? -/
def isHexChar (c : Char) : Bool :=
  c.isDigit || (97 ≤ c.toNat && c.toNat ≤ 102) || (65 ≤ c.toNat && c.toNat ≤ 70)

/-- Splits a character list on `-` (each dash separates two groups, so `n`
dashes yield `n + 1` groups, possibly empty). -/
def splitOnDash : List Char → List (List Char)
  | [] => [[]]
  | c :: rest =>
      let r := splitOnDash rest
      if c = '-' then [] :: r
      else
        match r with
        | [] => [[c]]
        | g :: gs => (c :: g) :: gs

/-- The test of the regex
`/^[0-9a-f]{8}-[0-9a-f]{4}-[0-9a-f]{4}-[0-9a-f]{4}-[0-9a-f]{12}$/i` used by
the chat page to validate the `session` URL parameter: splitting on the
dashes yields five groups of lengths 8, 4, 4, 4, 12, all of whose characters
are hex digits. -/
def isUuidFormat (s : String) : Bool :=
  let parts := splitOnDash s.data
  parts.map List.length == [8, 4, 4, 4, 12] &&
    parts.all (fun p => p.all isHexChar)

/-- An action taken by the chat page component. -/
inductive ViewAction where
  | callLoadSession (id : String)
  | toastView (title description : String)
  | stripSessionParam
deriving DecidableEq, Repr

/-- The effect the chat page's mount effect has for the `session` URL
parameter: absent parameter — nothing; malformed parameter — a toast and the
parameter is stripped from the URL, without calling `loadSession`; otherwise
`loadSession` is invoked on it. -/
def sessionParamEffect (sessionParam : Option String) : List ViewAction :=
  match sessionParam with
  | none => []
  | some p =>
      if !isUuidFormat p then
        [ViewAction.toastView "Invalid Session"
          "The chat session ID is not in the correct format. Starting a new chat instead.",
         ViewAction.stripSessionParam]
      else [ViewAction.callLoadSession p]

/-- The default welcome message of the chat page, personalised with the
agent's name and description when the agent row has loaded (the `||` fallback
fires on a null or empty description). -/
def welcomeMessage (agent : Option Agent) : Message :=
  match agent with
  | some a =>
      ⟨"assistant",
        "Hello! I'm " ++ a.name ++ ". " ++
          match a.description with
          | some d => if d.isEmpty then "How can I help you today?" else d
          | none => "How can I help you today?"⟩
  | none => ⟨"assistant", "Hello! I'm your AI assistant. How can I help you today?"⟩

/-- Models `displayMessages`: the controller's message list, or the single welcome
message when the list is empty. -/
def displayMessages (agent : Option Agent) (messages : List Message) :
    List Message :=
  if messages.length > 0 then messages else [welcomeMessage agent]

/-- The value of the `isLoading` flag after replaying the `setLoading` events
of a trace over an initial value. -/
def finalLoadingFlag : Bool → List Event → Bool
  | b, [] => b
  | _, Event.setLoading b :: rest => finalLoadingFlag b rest
  | b, Event.net _ :: rest => finalLoadingFlag b rest
  | b, Event.toast _ _ :: rest => finalLoadingFlag b rest
  | b, Event.logError _ :: rest => finalLoadingFlag b rest

/-- Replays a trace over an initial `isLoading` value and checks that every
network call happens while the flag is `true`. -/
def netsWhileLoading : Bool → List Event → Bool
  | _, [] => true
  | _, Event.setLoading b :: rest => netsWhileLoading b rest
  | b, Event.net _ :: rest => b && netsWhileLoading b rest
  | b, Event.toast _ _ :: rest => netsWhileLoading b rest
  | b, Event.logError _ :: rest => netsWhileLoading b rest

/-! ## Concrete data used by witnesses and counterexamples -/

/-- A `sendMessage` environment in which every external call succeeds. -/
def envOk : SendEnv :=
  { createEnv := { newUuid := "11111111-1111-1111-1111-111111111111",
                   insertResult := Except.ok () }
    saveUserResult := Except.ok ()
    agentResult := Except.ok { name := "Helper", description := some "I help." }
    generateResult := Except.ok (some { generatedText := "Hi! How can I help?" })
    saveAssistantResult := Except.ok () }

/-- An empty idle hook state. -/
def st0 : HookState := { messages := [], isLoading := false, sessionId := none }

/-- A `sendMessage` environment whose agent fetch fails while everything
else succeeds. -/
def envAgentFail : SendEnv :=
  { createEnv := { newUuid := "11111111-1111-1111-1111-111111111111",
                   insertResult := Except.ok () }
    saveUserResult := Except.ok ()
    agentResult := Except.error "agent fetch failed"
    generateResult := Except.ok (some { generatedText := "reply" })
    saveAssistantResult := Except.ok () }

/-- A `sendMessage` environment whose generation invocation fails. -/
def envGenFail : SendEnv :=
  { createEnv := { newUuid := "11111111-1111-1111-1111-111111111111",
                   insertResult := Except.ok () }
    saveUserResult := Except.ok ()
    agentResult := Except.ok { name := "Helper", description := some "I help." }
    generateResult := Except.error "model unavailable"
    saveAssistantResult := Except.ok () }

/-- A database holding one session owned by `"bob"` with two of its messages
stored out of creation order, plus a message of another session. -/
def dbBob : Db :=
  { chat_sessions := [{ id := "aaaaaaaa-0000-0000-0000-000000000000",
                        agent_id := "agent-1", user_id := "bob", title := "T" }]
    chat_messages :=
      [{ session_id := "aaaaaaaa-0000-0000-0000-000000000000",
         role := "assistant", content := "second", created_at := 2 },
       { session_id := "aaaaaaaa-0000-0000-0000-000000000000",
         role := "user", content := "first", created_at := 1 },
       { session_id := "other", role := "user", content := "x",
         created_at := 0 }] }

/-- A `loadSession` environment over `dbBob` whose queries succeed. -/
def envBob : LoadEnv :=
  { db := dbBob, sessionFetchError := none, messagesFetchError := none }

/-! ## Claims -/

/-- C1: for blank or whitespace-only input, and for an unauthenticated
caller, `sendMessage` leaves the whole hook state (message list, session id,
loading flag) unchanged and issues no network call. -/
theorem sendMessage_noop_blank_or_unauthenticated (env : SendEnv)
    (user : Option String) (agentId : String) (st : HookState)
    (content : String) (h : isBlank content = true ∨ user = none) :
    (sendMessage env user agentId st content).1 = st ∧
      netEvents (sendMessage env user agentId st content).2 = [] := by
  rcases h with h | h
  · simp [sendMessage, h, netEvents]
  · subst h
    by_cases hb : isBlank content <;>
      simp [sendMessage, hb, netEvents, Event.isNet]

/-- Witness for C1 at blank input. -/
theorem sendMessage_noop_blank_or_unauthenticated_witness :
    (sendMessage envOk (some "alice") "agent-1" st0 "   ").1 = st0 ∧
      netEvents (sendMessage envOk (some "alice") "agent-1" st0 "   ").2 = [] :=
  sendMessage_noop_blank_or_unauthenticated envOk (some "alice") "agent-1" st0
    "   " (Or.inl (by decide))

/-- C2 counterexample: loading the session owned by `"bob"` as user
`"alice"` is denied, yet the in-memory session id does change — `loadSession`
sets it to the requested id before the ownership check, so the claim that the
session id is left unchanged fails. -/
theorem loadSession_owner_mismatch_mutates_cex :
    ((dbBob.chat_sessions.find?
        (fun r => r.id == "aaaaaaaa-0000-0000-0000-000000000000")).map
      ChatSessionRow.user_id = some "bob") ∧
    (loadSession envBob (some "alice") st0
        "aaaaaaaa-0000-0000-0000-000000000000").1.sessionId ≠ st0.sessionId := by
  decide

/-- C2 amended: when the stored session's owner differs from the current
user, `loadSession` fails with the permission-denied error, surfaces it as a
toast, leaves the message list unchanged and fetches no messages — but it
does set the in-memory session id to the requested id (it assigns it before
the ownership check). -/
theorem loadSession_permission_denied (env : LoadEnv) (uid : String)
    (st : HookState) (sid : String) (row : ChatSessionRow)
    (hsid : sid.isEmpty = false) (hfetch : env.sessionFetchError = none)
    (hfind : env.db.chat_sessions.find? (fun r => r.id == sid) = some row)
    (howner : row.user_id ≠ uid) :
    (loadSession env (some uid) st sid).1.messages = st.messages ∧
    (loadSession env (some uid) st sid).1.sessionId = some sid ∧
    Event.toast "Error loading chat session"
      "You don't have permission to access this chat session" ∈
        (loadSession env (some uid) st sid).2 ∧
    netEvents (loadSession env (some uid) st sid).2 =
      [Event.net (.selectSession sid)] := by
  simp [loadSession, loadSessionTry, hsid, hfetch, hfind, howner, netEvents,
    Event.isNet]

/-- Witness for the amended C2 on the concrete database. -/
theorem loadSession_permission_denied_witness :
    (loadSession envBob (some "alice") st0
        "aaaaaaaa-0000-0000-0000-000000000000").1.messages = st0.messages ∧
    (loadSession envBob (some "alice") st0
        "aaaaaaaa-0000-0000-0000-000000000000").1.sessionId =
      some "aaaaaaaa-0000-0000-0000-000000000000" ∧
    Event.toast "Error loading chat session"
      "You don't have permission to access this chat session" ∈
        (loadSession envBob (some "alice") st0
          "aaaaaaaa-0000-0000-0000-000000000000").2 ∧
    netEvents (loadSession envBob (some "alice") st0
        "aaaaaaaa-0000-0000-0000-000000000000").2 =
      [Event.net (.selectSession "aaaaaaaa-0000-0000-0000-000000000000")] :=
  loadSession_permission_denied envBob "alice" st0
    "aaaaaaaa-0000-0000-0000-000000000000"
    { id := "aaaaaaaa-0000-0000-0000-000000000000", agent_id := "agent-1",
      user_id := "bob", title := "T" }
    (by decide) rfl (by decide) (by decide)

/-- C8: a successful `loadSession` of a session owned by the current user
replaces the in-memory message list with exactly the persisted rows of that
session — a sorted-by-`created_at` permutation of the table's rows for that
session id — and records the loaded session id. -/
theorem loadSession_success_replaces_messages (env : LoadEnv) (uid : String)
    (st : HookState) (sid : String) (row : ChatSessionRow)
    (hsid : sid.isEmpty = false) (h1 : env.sessionFetchError = none)
    (h2 : env.db.chat_sessions.find? (fun r => r.id == sid) = some row)
    (h3 : row.user_id = uid) (h4 : env.messagesFetchError = none) :
    (loadSession env (some uid) st sid).1.messages =
      (sortedSessionMessages env.db sid).map
        (fun r => Message.mk r.role r.content) ∧
    List.Perm (sortedSessionMessages env.db sid)
      (env.db.chat_messages.filter (fun r => r.session_id == sid)) ∧
    List.Sorted msgLe (sortedSessionMessages env.db sid) ∧
    (loadSession env (some uid) st sid).1.sessionId = some sid := by
  refine ⟨?_, List.perm_insertionSort msgLe _,
    List.sorted_insertionSort msgLe _, ?_⟩ <;>
    simp [loadSession, loadSessionTry, hsid, h1, h2, h3, h4]

/-- Witness for C8: user `"bob"` loads their session from the concrete
database. -/
theorem loadSession_success_replaces_messages_witness :
    (loadSession envBob (some "bob") st0
        "aaaaaaaa-0000-0000-0000-000000000000").1.messages =
      (sortedSessionMessages dbBob "aaaaaaaa-0000-0000-0000-000000000000").map
        (fun r => Message.mk r.role r.content) ∧
    List.Perm (sortedSessionMessages dbBob "aaaaaaaa-0000-0000-0000-000000000000")
      (dbBob.chat_messages.filter
        (fun r => r.session_id == "aaaaaaaa-0000-0000-0000-000000000000")) ∧
    List.Sorted msgLe
      (sortedSessionMessages dbBob "aaaaaaaa-0000-0000-0000-000000000000") ∧
    (loadSession envBob (some "bob") st0
        "aaaaaaaa-0000-0000-0000-000000000000").1.sessionId =
      some "aaaaaaaa-0000-0000-0000-000000000000" :=
  loadSession_success_replaces_messages envBob "bob" st0
    "aaaaaaaa-0000-0000-0000-000000000000"
    { id := "aaaaaaaa-0000-0000-0000-000000000000", agent_id := "agent-1",
      user_id := "bob", title := "T" }
    (by decide) rfl (by decide) rfl rfl

/-- C3: when every step succeeds — the session already exists or its creation
succeeds, both message inserts succeed, and generation returns a non-empty
`generatedText` — `sendMessage` appends the user message and then the
assistant message to the in-memory list, and persists both under the one
session id recorded in the state. -/
theorem sendMessage_success (env : SendEnv) (uid agentId : String)
    (st : HookState) (content : String) (g : GenData)
    (hblank : isBlank content = false)
    (hgen : env.generateResult = Except.ok (some g))
    (hne : g.generatedText.isEmpty = false)
    (hs1 : env.saveUserResult = Except.ok ())
    (hs2 : env.saveAssistantResult = Except.ok ())
    (hsess : st.sessionId = none → env.createEnv.insertResult = Except.ok ()) :
    ∃ sid,
      (sendMessage env (some uid) agentId st content).1.messages =
        st.messages ++ [⟨"user", content⟩, ⟨"assistant", g.generatedText⟩] ∧
      (sendMessage env (some uid) agentId st content).1.sessionId = some sid ∧
      Event.net (.insertMessage sid "user" content) ∈
        (sendMessage env (some uid) agentId st content).2 ∧
      Event.net (.insertMessage sid "assistant" g.generatedText) ∈
        (sendMessage env (some uid) agentId st content).2 := by
  cases hss : st.sessionId with
  | some sid =>
      refine ⟨sid, ?_⟩
      cases hag : env.agentResult <;>
        simp [sendMessage, hblank, sendMessageTry, hss, sendMessageBody, hgen,
          hne, hs1, hs2, hag, saveMessage, getAgentConfig]
  | none =>
      refine ⟨env.createEnv.newUuid, ?_⟩
      cases hag : env.agentResult <;>
        simp [sendMessage, hblank, sendMessageTry, hss, hsess hss,
          createChatSession, sendMessageBody, hgen, hne, hs1, hs2, hag,
          saveMessage, getAgentConfig]

/-- Witness for C3: a successful send of `"hi"` from the empty state. -/
theorem sendMessage_success_witness :
    ∃ sid,
      (sendMessage envOk (some "alice") "agent-1" st0 "hi").1.messages =
        st0.messages ++
          [⟨"user", "hi"⟩, ⟨"assistant", "Hi! How can I help?"⟩] ∧
      (sendMessage envOk (some "alice") "agent-1" st0 "hi").1.sessionId =
        some sid ∧
      Event.net (.insertMessage sid "user" "hi") ∈
        (sendMessage envOk (some "alice") "agent-1" st0 "hi").2 ∧
      Event.net (.insertMessage sid "assistant" "Hi! How can I help?") ∈
        (sendMessage envOk (some "alice") "agent-1" st0 "hi").2 :=
  sendMessage_success envOk "alice" "agent-1" st0 "hi"
    { generatedText := "Hi! How can I help?" }
    (by decide) rfl (by decide) rfl rfl (fun _ => rfl)

/-- C4 counterexample: with a failing agent fetch but a succeeding
generation call, `sendMessage` surfaces no notification at all and still
appends an assistant message — `getAgentConfig` swallows its error and
returns `null`, so an agent-fetch failure does not abort the send. -/
theorem sendMessage_agent_failure_no_toast_cex :
    envAgentFail.agentResult = Except.error "agent fetch failed" ∧
    toastEvents (sendMessage envAgentFail (some "alice") "agent-1"
        { messages := [], isLoading := false, sessionId := some "s1" }
        "hi").2 = [] ∧
    (sendMessage envAgentFail (some "alice") "agent-1"
        { messages := [], isLoading := false, sessionId := some "s1" }
        "hi").1.messages = [⟨"user", "hi"⟩, ⟨"assistant", "reply"⟩] :=
  ⟨rfl, by decide, by decide⟩

/-- C4 amended: if `sendMessage` fails at session creation, at the
generation invocation, or on a missing/empty reply, a toast is surfaced and
the in-memory list still ends with the optimistic user message, with no
assistant message appended; an agent-fetch failure, however, is swallowed
(`getAgentConfig` returns `null`) and neither aborts the send nor surfaces a
notification. -/
theorem sendMessage_failure_keeps_user_message (env : SendEnv)
    (uid agentId : String) (st : HookState) (content : String)
    (hblank : isBlank content = false)
    (hfail :
      (st.sessionId = none ∧
        ∃ e, env.createEnv.insertResult = Except.error e) ∨
      (∃ e, env.generateResult = Except.error e) ∨
      env.generateResult = Except.ok none ∨
      (∃ g, env.generateResult = Except.ok (some g) ∧
        g.generatedText.isEmpty = true)) :
    (sendMessage env (some uid) agentId st content).1.messages =
      st.messages ++ [⟨"user", content⟩] ∧
    toastEvents (sendMessage env (some uid) agentId st content).2 ≠ [] := by
  rcases hfail with ⟨hnone, e, hcr⟩ | ⟨e, hgen⟩ | hgen | ⟨g, hgen, hge⟩ <;>
  cases hss : st.sessionId <;>
  rcases hcrc : env.createEnv.insertResult with e2 | u <;>
  rcases hsu : env.saveUserResult with e3 | u2 <;>
  rcases hag : env.agentResult with e4 | a <;>
  rcases hgenc : env.generateResult with e5 | _ | g2 <;>
  simp_all [sendMessage, sendMessageTry, sendMessageBody, createChatSession,
    saveMessage, getAgentConfig, toastEvents, Event.isToast]

/-- Witness for the amended C4: generation errors out on a send from the
empty state, the optimistic `"hi"` stays, and a toast is shown. -/
theorem sendMessage_failure_keeps_user_message_witness :
    (sendMessage envGenFail (some "alice") "agent-1" st0 "hi").1.messages =
      st0.messages ++ [⟨"user", "hi"⟩] ∧
    toastEvents (sendMessage envGenFail (some "alice") "agent-1" st0 "hi").2 ≠
      [] :=
  sendMessage_failure_keeps_user_message envGenFail "alice" "agent-1" st0 "hi"
    (by decide) (Or.inr (Or.inl ⟨"model unavailable", rfl⟩))

/-- C6: `resetChat` always yields an empty message list and a null session
id, and issues no network call at all (in particular no deletion). -/
theorem resetChat_clears_state (st : HookState) :
    (resetChat st).1.messages = [] ∧ (resetChat st).1.sessionId = none ∧
      (resetChat st).2 = [] := by
  simp [resetChat]

/-- C7: a `session` URL parameter that fails the UUID-format test never
reaches `loadSession`; the page toasts and strips the parameter instead. -/
theorem invalid_session_param_stripped (p : String)
    (h : isUuidFormat p = false) :
    sessionParamEffect (some p) =
      [ViewAction.toastView "Invalid Session"
        "The chat session ID is not in the correct format. Starting a new chat instead.",
       ViewAction.stripSessionParam] ∧
      ∀ id, ViewAction.callLoadSession id ∉ sessionParamEffect (some p) := by
  refine ⟨by simp [sessionParamEffect, h], fun id => ?_⟩
  simp [sessionParamEffect, h]

/-- Witness for C7 at a malformed parameter. -/
theorem invalid_session_param_stripped_witness :
    sessionParamEffect (some "not-a-uuid") =
      [ViewAction.toastView "Invalid Session"
        "The chat session ID is not in the correct format. Starting a new chat instead.",
       ViewAction.stripSessionParam] ∧
      ∀ id, ViewAction.callLoadSession id ∉ sessionParamEffect (some "not-a-uuid") :=
  invalid_session_param_stripped "not-a-uuid" (by decide)

/-- C10: on an empty message list the page renders exactly one welcome
message with the assistant role, personalised with the agent's name and
description once the agent row has loaded; on a non-empty list it renders
the list itself, with no welcome message injected. -/
theorem displayMessages_welcome (agent : Option Agent)
    (messages : List Message) :
    (messages = [] →
      displayMessages agent messages = [welcomeMessage agent] ∧
      (welcomeMessage agent).role = "assistant" ∧
      (∀ a d, agent = some a → a.description = some d → d.isEmpty = false →
        (welcomeMessage agent).content = "Hello! I'm " ++ a.name ++ ". " ++ d)) ∧
    (messages ≠ [] → displayMessages agent messages = messages) := by
  constructor
  · rintro rfl
    refine ⟨by simp [displayMessages], ?_, ?_⟩
    · cases agent <;> simp [welcomeMessage]
    · rintro a d rfl hd hne
      simp [welcomeMessage, hd, hne]
  · intro h
    have : 0 < messages.length := List.length_pos.2 h
    simp [displayMessages, this]

/-- Witness for C10: empty list with a loaded agent. -/
theorem displayMessages_welcome_witness :
    displayMessages (some { name := "Helper", description := some "I help." })
        [] = [welcomeMessage (some { name := "Helper", description := some "I help." })] ∧
      (welcomeMessage (some { name := "Helper", description := some "I help." })).role = "assistant" ∧
      (∀ a d, (some { name := "Helper", description := some "I help." } : Option Agent) = some a →
        a.description = some d → d.isEmpty = false →
        (welcomeMessage (some { name := "Helper", description := some "I help." })).content =
          "Hello! I'm " ++ a.name ++ ". " ++ d) :=
  (displayMessages_welcome (some { name := "Helper", description := some "I help." }) []).1 rfl

/-- C5 counterexample: a failing insert while persisting a chat message is
caught and logged by `saveMessage`, but no toast is surfaced — a
PersistenceFailure when writing a chat message is not turned into a
user-visible notification. -/
theorem saveMessage_failure_not_surfaced_cex :
    toastEvents (saveMessage (Except.error "db down") ⟨"user", "hi"⟩ "s1") =
        [] ∧
    logEvents (saveMessage (Except.error "db down") ⟨"user", "hi"⟩ "s1") =
      [Event.logError "Error saving message: db down"] := by
  decide

/-- C5 amended: every error in the taxonomy is caught at the controller
boundary and none is fatal, but neither the logging nor the surfacing is
uniform: a PersistenceFailure when writing a chat message is logged and not
surfaced (first conjunct); AuthenticationRequired is surfaced as a toast and
nothing else — in particular it is not logged (second conjunct, an exact
trace); PermissionDenied, SessionNotFound and GenerationFailure are each
logged and surfaced as a toast; and ValidationFailure on the session URL
parameter is surfaced as a toast. -/
theorem taxonomy_errors_surfacing :
    (∀ e m sid, toastEvents (saveMessage (Except.error e) m sid) = [] ∧
      logEvents (saveMessage (Except.error e) m sid) =
        [Event.logError ("Error saving message: " ++ e)]) ∧
    (∀ env agentId st content, isBlank content = false →
      (sendMessage env none agentId st content).2 =
        [Event.toast "Authentication required"
          "You must be logged in to send messages"]) ∧
    (∀ env uid st sid row, sid.isEmpty = false →
      env.sessionFetchError = none →
      env.db.chat_sessions.find? (fun r => r.id == sid) = some row →
      row.user_id ≠ uid →
      Event.toast "Error loading chat session"
          "You don't have permission to access this chat session" ∈
        (loadSession env (some uid) st sid).2 ∧
      Event.logError "Permission denied" ∈
        (loadSession env (some uid) st sid).2) ∧
    (∀ env uid st sid, sid.isEmpty = false →
      env.sessionFetchError = none →
      env.db.chat_sessions.find? (fun r => r.id == sid) = none →
      Event.toast "Error loading chat session" "Session not found" ∈
        (loadSession env (some uid) st sid).2 ∧
      Event.logError "Error in loadSession: Session not found" ∈
        (loadSession env (some uid) st sid).2) ∧
    (∀ env uid agentId st content e, isBlank content = false →
      env.generateResult = Except.error e → e.isEmpty = false →
      (st.sessionId = none → env.createEnv.insertResult = Except.ok ()) →
      Event.toast "Error" e ∈
        (sendMessage env (some uid) agentId st content).2 ∧
      Event.logError ("Error sending message: " ++ e) ∈
        (sendMessage env (some uid) agentId st content).2) ∧
    (∀ p, isUuidFormat p = false →
      ViewAction.toastView "Invalid Session"
          "The chat session ID is not in the correct format. Starting a new chat instead." ∈
        sessionParamEffect (some p)) := by
  refine ⟨?_, ?_, ?_, ?_, ?_, ?_⟩
  · intro e m sid
    simp [saveMessage, toastEvents, logEvents, Event.isToast, Event.isLog]
  · intro env agentId st content h
    simp [sendMessage, h]
  · intro env uid st sid row h1 h2 h3 h4
    simp [loadSession, loadSessionTry, h1, h2, h3, h4]
  · intro env uid st sid h1 h2 h3
    simp [loadSession, loadSessionTry, h1, h2, h3]
  · intro env uid agentId st content e h1 h2 he hsess
    cases hss : st.sessionId with
    | some sid =>
        cases hsu : env.saveUserResult <;> cases hag : env.agentResult <;>
          simp [sendMessage, h1, sendMessageTry, hss, sendMessageBody, h2, he,
            hsu, hag, saveMessage, getAgentConfig]
    | none =>
        cases hsu : env.saveUserResult <;> cases hag : env.agentResult <;>
          simp [sendMessage, h1, sendMessageTry, hss, hsess hss,
            createChatSession, sendMessageBody, h2, he, hsu, hag, saveMessage,
            getAgentConfig]
  · intro p h
    simp [sessionParamEffect, h]

/-- Witness for the amended C5: a concrete generation failure is surfaced as
the `"Error"` toast and logged. -/
theorem taxonomy_errors_surfacing_witness :
    Event.toast "Error" "model unavailable" ∈
      (sendMessage envGenFail (some "alice") "agent-1" st0 "hi").2 ∧
    Event.logError "Error sending message: model unavailable" ∈
      (sendMessage envGenFail (some "alice") "agent-1" st0 "hi").2 :=
  taxonomy_errors_surfacing.2.2.2.2.1 envGenFail "alice" "agent-1" st0 "hi"
    "model unavailable" (by decide) rfl (by decide) (fun _ => rfl)

/-- C9: `isLoading` brackets the in-flight work: past its no-op guards,
`sendMessage` — and `loadSession` on every path — issue network calls only
while the flag is `true` (replaying the trace from `false`, every network
event is preceded by `setLoading true` with no intervening
`setLoading false`), and on every outcome the operation completes with
`isLoading` equal to `false`. -/
theorem isLoading_brackets_network (envS : SendEnv) (envL : LoadEnv)
    (user : Option String) (uid agentId content sid : String)
    (stS stL : HookState) (hblank : isBlank content = false) :
    ((sendMessage envS (some uid) agentId stS content).1.isLoading = false ∧
      netsWhileLoading false
        (sendMessage envS (some uid) agentId stS content).2 = true ∧
      finalLoadingFlag stS.isLoading
        (sendMessage envS (some uid) agentId stS content).2 = false) ∧
    ((loadSession envL user stL sid).1.isLoading = false ∧
      netsWhileLoading false (loadSession envL user stL sid).2 = true ∧
      finalLoadingFlag stL.isLoading
        (loadSession envL user stL sid).2 = false) := by
  refine ⟨?_, ?_⟩
  · cases hss : stS.sessionId <;>
    rcases hcrc : envS.createEnv.insertResult with e2 | u <;>
    rcases hsu : envS.saveUserResult with e3 | u2 <;>
    rcases hag : envS.agentResult with e4 | a <;>
    rcases hgenc : envS.generateResult with e5 | _ | g2 <;>
    rcases hsa : envS.saveAssistantResult with e6 | u3 <;>
    first
      | (by_cases hg2 : g2.generatedText.isEmpty <;>
          simp [sendMessage, hblank, sendMessageTry, sendMessageBody,
            createChatSession, saveMessage, getAgentConfig, hss, hcrc, hsu,
            hag, hgenc, hsa, hg2, netsWhileLoading, finalLoadingFlag])
      | simp [sendMessage, hblank, sendMessageTry, sendMessageBody,
          createChatSession, saveMessage, getAgentConfig, hss, hcrc, hsu, hag,
          hgenc, hsa, netsWhileLoading, finalLoadingFlag]
  · by_cases hsid : sid.isEmpty
    · cases user <;>
        simp [loadSession, loadSessionTry, hsid, netsWhileLoading,
          finalLoadingFlag]
    · cases user with
      | none =>
          simp [loadSession, loadSessionTry, hsid, netsWhileLoading,
            finalLoadingFlag]
      | some uid2 =>
          rcases hse : envL.sessionFetchError with _ | e7
          · rcases hfind : envL.db.chat_sessions.find? (fun r => r.id == sid)
              with _ | row
            · simp [loadSession, loadSessionTry, hsid, hse, hfind,
                netsWhileLoading, finalLoadingFlag]
            · by_cases hown : row.user_id = uid2
              · rcases hme : envL.messagesFetchError with _ | e8 <;>
                  simp [loadSession, loadSessionTry, hsid, hse, hfind, hown,
                    hme, netsWhileLoading, finalLoadingFlag]
              · simp [loadSession, loadSessionTry, hsid, hse, hfind, hown,
                  netsWhileLoading, finalLoadingFlag]
          · simp [loadSession, loadSessionTry, hsid, hse, netsWhileLoading,
              finalLoadingFlag]

/-- Witness for C9: a concrete successful send and a concrete successful
session load. -/
theorem isLoading_brackets_network_witness :
    ((sendMessage envOk (some "alice") "agent-1" st0 "hi").1.isLoading =
        false ∧
      netsWhileLoading false
        (sendMessage envOk (some "alice") "agent-1" st0 "hi").2 = true ∧
      finalLoadingFlag st0.isLoading
        (sendMessage envOk (some "alice") "agent-1" st0 "hi").2 = false) ∧
    ((loadSession envBob (some "bob") st0
        "aaaaaaaa-0000-0000-0000-000000000000").1.isLoading = false ∧
      netsWhileLoading false (loadSession envBob (some "bob") st0
        "aaaaaaaa-0000-0000-0000-000000000000").2 = true ∧
      finalLoadingFlag st0.isLoading (loadSession envBob (some "bob") st0
        "aaaaaaaa-0000-0000-0000-000000000000").2 = false) :=
  isLoading_brackets_network envOk envBob (some "bob") "alice" "agent-1" "hi"
    "aaaaaaaa-0000-0000-0000-000000000000" st0 st0 (by decide)

end ChatSpec
